import Mathlib

/-!
Shallow embedding of the Field Mapping & Validation subsystem of
`FileUploadService` (bulk data import), together with proofs of the
spec's testable properties.

Strings are Lean `String`s (lists of characters); JavaScript numbers are
embedded as rationals `ℚ`; a JavaScript cell value (`any`) is the
inductive `CellValue`; the fallible per-row persistence call is an
explicit collaborator function returning `Except`.
-/

namespace FileUploadService

/-- The five import kinds (`ImportType` enum). -/
inductive ImportType
  | CAMPAIGNS
  | AUDIENCES
  | KEYWORDS
  | CREATIVES
  | BUDGETS
deriving DecidableEq, Repr

/-- A spreadsheet cell as delivered by the upstream parsers: JavaScript
`null`, `undefined`, a string, a number, or a boolean. -/
inductive CellValue
  | vnull
  | vundefined
  | vstr (s : String)
  | vnum (q : ℚ)
  | vbool (b : Bool)
deriving DecidableEq, Repr

/-- `FileData`: headers, rows and the stored row count (`preview` omitted:
it is UI-only). A row may be shorter than `headers`; reading past its end
yields `undefined`, as JavaScript indexing does. -/
structure FileData where
  headers : List String
  rows : List (List CellValue)
  totalRows : Nat
deriving DecidableEq, Repr

/-- `row[colIndex]` — JavaScript indexing returns `undefined` out of bounds. -/
def cellAt (row : List CellValue) (colIndex : Nat) : CellValue :=
  row.getD colIndex .vundefined

-- ==================== SIMILARITY SCORER ====================

/-- Row `i + 1` of the dynamic-programming table built by
`levenshteinDistance(str1, str2)`, given row `i` as `prev`.  Column `0`
holds `i + 1`; column `j + 1` holds `matrix[i][j]` when
`str2[i] = str1[j]` and otherwise
`min(matrix[i][j] + 1, matrix[i+1][j] + 1, matrix[i][j+1] + 1)`,
exactly the cell recurrence the source loop fills in. -/
def levRowNext (str1 str2 : String) (i : Nat) (prev : Nat → Nat) : Nat → Nat
  | 0 => i + 1
  | j + 1 =>
      if str2.data.getD i ' ' = str1.data.getD j ' ' then prev j
      else
        min (min (prev j + 1) (levRowNext str1 str2 i prev j + 1)) (prev (j + 1) + 1)

/-- The dynamic-programming table of `levenshteinDistance(str1, str2)`:
`levMatrix str1 str2 i j` is `matrix[i][j]`, with row index `i` ranging
over `str2` and column index `j` over `str1`.  Row `0` is `0, 1, 2, …` and
each later row is produced from its predecessor by `levRowNext`, as in the
source's row-by-row loop. -/
def levMatrix (str1 str2 : String) : Nat → Nat → Nat
  | 0 => fun j => j
  | i + 1 => levRowNext str1 str2 i (levMatrix str1 str2 i)

theorem levMatrix_succ_succ (str1 str2 : String) (i j : Nat) :
    levMatrix str1 str2 (i + 1) (j + 1) =
      if str2.data.getD i ' ' = str1.data.getD j ' ' then levMatrix str1 str2 i j
      else
        min (min (levMatrix str1 str2 i j + 1) (levMatrix str1 str2 (i + 1) j + 1))
          (levMatrix str1 str2 i (j + 1) + 1) := rfl

/-- `levenshteinDistance(str1, str2)` returns `matrix[str2.length][str1.length]`. -/
def levenshteinDistance (str1 str2 : String) : Nat :=
  levMatrix str1 str2 str2.length str1.length

/-- `calculateSimilarity(str1, str2)`: pick the longer/shorter of the two
inputs, return `1.0` for two empty strings, otherwise
`(longer.length - editDistance) / longer.length`. -/
def calculateSimilarity (str1 str2 : String) : ℚ :=
  let longer := if str1.length > str2.length then str1 else str2
  let shorter := if str1.length > str2.length then str2 else str1
  if longer.length = 0 then 1
  else ((longer.length : ℚ) - (levenshteinDistance longer shorter : ℚ)) / (longer.length : ℚ)

-- properties of the DP table

theorem levMatrix_self_diag (s : String) (i : Nat) : levMatrix s s i i = 0 := by
  induction i with
  | zero => rfl
  | succ n ih => rw [levMatrix_succ_succ, if_pos rfl]; exact ih

theorem levMatrix_le_max (str1 str2 : String) (i j : Nat) :
    levMatrix str1 str2 i j ≤ max i j := by
  induction i generalizing j with
  | zero => simp [levMatrix]
  | succ n ih =>
    induction j with
    | zero =>
      show n + 1 ≤ max (n + 1) 0
      omega
    | succ m ihj =>
      rw [levMatrix_succ_succ]
      split
      · exact le_trans (ih m) (by omega)
      · have h1 := ih m
        have h2 := ih (m + 1)
        have h3 := ihj
        omega

theorem levMatrix_symm (str1 str2 : String) (i j : Nat) :
    levMatrix str1 str2 i j = levMatrix str2 str1 j i := by
  induction i generalizing j with
  | zero => cases j <;> rfl
  | succ n ih =>
    induction j with
    | zero => rfl
    | succ m ihj =>
      rw [levMatrix_succ_succ, levMatrix_succ_succ]
      have hc : (str2.data.getD n ' ' = str1.data.getD m ' ') ↔
          (str1.data.getD m ' ' = str2.data.getD n ' ') := eq_comm
      split
      · rw [if_pos (hc.mp (by assumption)), ih m]
      · rw [if_neg (fun h => (by assumption : ¬_) (hc.mpr h))]
        rw [ih m, ih (m + 1), ihj]
        omega

theorem levenshteinDistance_symm (a b : String) :
    levenshteinDistance a b = levenshteinDistance b a := by
  unfold levenshteinDistance
  exact (levMatrix_symm b a a.length b.length).symm

theorem levenshteinDistance_self (a : String) : levenshteinDistance a a = 0 :=
  levMatrix_self_diag a a.length

theorem levenshteinDistance_le (a b : String) :
    levenshteinDistance a b ≤ max a.length b.length := by
  have := levMatrix_le_max a b b.length a.length
  unfold levenshteinDistance
  omega

theorem ratio_bounds (L d : Nat) (hd : d ≤ L) (h0 : L ≠ 0) :
    0 ≤ ((L : ℚ) - d) / L ∧ ((L : ℚ) - d) / L ≤ 1 := by
  have hpos : (0 : ℚ) < L := by exact_mod_cast Nat.pos_of_ne_zero h0
  have hdq : (d : ℚ) ≤ L := by exact_mod_cast hd
  have hd0 : (0 : ℚ) ≤ d := by positivity
  constructor
  · apply div_nonneg (by linarith) (le_of_lt hpos)
  · rw [div_le_one hpos]; linarith

theorem calculateSimilarity_nonneg_le_one (a b : String) :
    0 ≤ calculateSimilarity a b ∧ calculateSimilarity a b ≤ 1 := by
  unfold calculateSimilarity
  by_cases h : a.length > b.length <;> simp only [h, if_true, if_false]
  · by_cases h0 : a.length = 0
    · omega
    · rw [if_neg h0]
      exact ratio_bounds a.length (levenshteinDistance a b)
        (by have := levenshteinDistance_le a b; omega) h0
  · by_cases h0 : b.length = 0
    · simp [h0]
    · rw [if_neg h0]
      exact ratio_bounds b.length (levenshteinDistance b a)
        (by have := levenshteinDistance_le b a; omega) h0

theorem calculateSimilarity_self (a : String) : calculateSimilarity a a = 1 := by
  unfold calculateSimilarity
  simp only [lt_irrefl, gt_iff_lt, if_false]
  by_cases h0 : a.length = 0
  · simp [h0]
  · rw [if_neg h0, levenshteinDistance_self]
    push_cast
    rw [sub_zero, div_self (by exact_mod_cast h0)]

theorem calculateSimilarity_comm (a b : String) :
    calculateSimilarity a b = calculateSimilarity b a := by
  simp only [calculateSimilarity, gt_iff_lt]
  split_ifs <;>
    first
      | rfl
      | (exfalso; omega)
      | (have hlen : a.length = b.length := by omega
         rw [levenshteinDistance_symm b a, hlen])

/-- C6: `calculateSimilarity` always lies in `[0, 1]`; it is `1` on equal
strings; and on two empty strings it returns `1.0`. -/
theorem calculateSimilarity_bounds_and_identity (a b : String) :
    0 ≤ calculateSimilarity a b ∧ calculateSimilarity a b ≤ 1 ∧
      calculateSimilarity a a = 1 ∧
      (a = "" → b = "" → calculateSimilarity a b = 1) := by
  refine ⟨(calculateSimilarity_nonneg_le_one a b).1,
    (calculateSimilarity_nonneg_le_one a b).2, calculateSimilarity_self a, ?_⟩
  rintro rfl rfl
  exact calculateSimilarity_self ""

/-- Witness for C6 at the concrete strings "campaignname" and "name",
and at the two empty strings. -/
theorem calculateSimilarity_bounds_and_identity_witness :
    (0 ≤ calculateSimilarity "campaignname" "name" ∧
        calculateSimilarity "campaignname" "name" ≤ 1 ∧
        calculateSimilarity "campaignname" "campaignname" = 1 ∧
        (("campaignname" : String) = "" → ("name" : String) = "" →
          calculateSimilarity "campaignname" "name" = 1)) ∧
      calculateSimilarity "" "" = 1 :=
  ⟨calculateSimilarity_bounds_and_identity "campaignname" "name",
    (calculateSimilarity_bounds_and_identity "" "").2.2.2 rfl rfl⟩

/-- C7: `calculateSimilarity` is symmetric in its two arguments. -/
theorem calculateSimilarity_symmetric (a b : String) :
    calculateSimilarity a b = calculateSimilarity b a :=
  calculateSimilarity_comm a b

/-- Witness for C7 at concrete strings of different lengths. -/
theorem calculateSimilarity_symmetric_witness :
    calculateSimilarity "budget" "budgettype" =
      calculateSimilarity "budgettype" "budget" :=
  calculateSimilarity_symmetric "budget" "budgettype"

-- ==================== FIELD MAPPING ====================

/-- `header.toLowerCase().replace(/[_\s]+/g, '')` — lower-case, then drop
underscores and whitespace. -/
def normalizeHeader (s : String) : String :=
  String.mk ((s.data.map Char.toLower).filter fun c => !(c == '_' || c.isWhitespace))

/-- The per-kind required import fields (`getRequiredFields`). -/
def getRequiredFields : ImportType → List String
  | .CAMPAIGNS => ["name", "platform", "objective", "budget"]
  | .AUDIENCES => ["name", "type", "size"]
  | .KEYWORDS => ["keyword", "match_type"]
  | .CREATIVES => ["name", "type", "headline"]
  | .BUDGETS => ["campaign_id", "amount", "type"]

/-- The per-kind target schema fields (`getTargetFields`). -/
def getTargetFields : ImportType → List String
  | .CAMPAIGNS =>
      ["name", "platform", "objective", "status", "budget", "budget_type",
        "start_date", "end_date"]
  | .AUDIENCES => ["name", "type", "size", "description"]
  | .KEYWORDS => ["keyword", "match_type", "bid", "status"]
  | .CREATIVES => ["name", "type", "headline", "description", "call_to_action"]
  | .BUDGETS => ["campaign_id", "amount", "type", "currency"]

/-- One step of the best-match scan in `generateFieldMapping`: keep the
incumbent `(bestScore, bestMatch)` unless this target's score
`calculateSimilarity(normalized, targetNormalized)` is strictly higher. -/
def bestStep (normalized : String) (best : ℚ × String) (target : String) : ℚ × String :=
  if calculateSimilarity normalized (normalizeHeader target) > best.1 then
    (calculateSimilarity normalized (normalizeHeader target), target)
  else best

/-- The inner loop of `generateFieldMapping`: starting from
`bestScore = 0, bestMatch = ''`, scan all target fields. -/
def findBestMatch (normalized : String) (targets : List String) : ℚ × String :=
  targets.foldl (bestStep normalized) (0, "")

/-- The per-header body of `generateFieldMapping`: emit `header ↦ bestMatch`
exactly when the best score is strictly above `0.5`. -/
def mapEntry (importType : ImportType) (header : String) : Option (String × String) :=
  if (findBestMatch (normalizeHeader header) (getTargetFields importType)).1 > 1 / 2 then
    some (header, (findBestMatch (normalizeHeader header) (getTargetFields importType)).2)
  else none

/-- `generateFieldMapping(headers, importType)` as an association list in
header order (a JavaScript object keyed by the source headers). -/
def generateFieldMapping (headers : List String) (importType : ImportType) :
    List (String × String) :=
  headers.filterMap (mapEntry importType)

theorem foldl_bestStep_gt_iff (normalized : String) (targets : List String)
    (init : ℚ × String) (c : ℚ) :
    c < (targets.foldl (bestStep normalized) init).1 ↔
      c < init.1 ∨
        ∃ t ∈ targets, c < calculateSimilarity normalized (normalizeHeader t) := by
  induction targets generalizing init with
  | nil => simp
  | cons x xs ih =>
    simp only [List.foldl_cons]
    by_cases h : calculateSimilarity normalized (normalizeHeader x) > init.1
    · rw [show bestStep normalized init x =
          (calculateSimilarity normalized (normalizeHeader x), x) from
            by simp only [bestStep, if_pos h], ih]
      constructor
      · rintro (hlt | ⟨t, ht, hlt⟩)
        · exact Or.inr ⟨x, List.mem_cons_self x xs, hlt⟩
        · exact Or.inr ⟨t, List.mem_cons_of_mem x ht, hlt⟩
      · rintro (hlt | ⟨t, ht, hlt⟩)
        · exact Or.inl (lt_trans hlt h)
        · rcases List.mem_cons.mp ht with rfl | ht'
          · exact Or.inl hlt
          · exact Or.inr ⟨t, ht', hlt⟩
    · rw [show bestStep normalized init x = init from by simp only [bestStep, if_neg h], ih]
      have hle : calculateSimilarity normalized (normalizeHeader x) ≤ init.1 :=
        not_lt.mp h
      constructor
      · rintro (hlt | ⟨t, ht, hlt⟩)
        · exact Or.inl hlt
        · exact Or.inr ⟨t, List.mem_cons_of_mem x ht, hlt⟩
      · rintro (hlt | ⟨t, ht, hlt⟩)
        · exact Or.inl hlt
        · rcases List.mem_cons.mp ht with rfl | ht'
          · exact Or.inl (lt_of_lt_of_le hlt hle)
          · exact Or.inr ⟨t, ht', hlt⟩

theorem findBestMatch_gt_half_iff (normalized : String) (targets : List String) :
    1 / 2 < (findBestMatch normalized targets).1 ↔
      ∃ t ∈ targets, 1 / 2 < calculateSimilarity normalized (normalizeHeader t) := by
  rw [findBestMatch, foldl_bestStep_gt_iff]
  have : ¬ ((1 : ℚ) / 2 < ((0 : ℚ), ("" : String)).1) := by norm_num
  tauto

theorem mem_generateFieldMapping_keys (headers : List String) (it : ImportType)
    (header : String) :
    header ∈ (generateFieldMapping headers it).map Prod.fst ↔
      header ∈ headers ∧
        (findBestMatch (normalizeHeader header) (getTargetFields it)).1 > 1 / 2 := by
  induction headers with
  | nil => simp [generateFieldMapping]
  | cons x xs ih =>
    by_cases hx : (findBestMatch (normalizeHeader x) (getTargetFields it)).1 > 1 / 2
    · rw [generateFieldMapping, List.filterMap_cons_some
        (show mapEntry it x =
            some (x, (findBestMatch (normalizeHeader x) (getTargetFields it)).2) from
          by simp only [mapEntry, if_pos hx]), List.map_cons]
      constructor
      · intro h
        rcases List.mem_cons.mp h with rfl | hmem
        · exact ⟨List.mem_cons_self _ _, hx⟩
        · have hm := ih.mp hmem
          exact ⟨List.mem_cons_of_mem _ hm.1, hm.2⟩
      · rintro ⟨hmem, hbest⟩
        rcases List.mem_cons.mp hmem with rfl | hmem'
        · exact List.mem_cons_self _ _
        · exact List.mem_cons_of_mem _ (ih.mpr ⟨hmem', hbest⟩)
    · rw [generateFieldMapping, List.filterMap_cons_none
        (show mapEntry it x = none from by simp only [mapEntry, if_neg hx])]
      constructor
      · intro h
        have hm := ih.mp h
        exact ⟨List.mem_cons_of_mem _ hm.1, hm.2⟩
      · rintro ⟨hmem, hbest⟩
        rcases List.mem_cons.mp hmem with rfl | hmem'
        · exact absurd hbest hx
        · exact ih.mpr ⟨hmem', hbest⟩

/-- C3: `generateFieldMapping` contains an entry for a source header exactly
when some target field's similarity with the normalized header is strictly
above `0.5`; headers whose best score is at most `0.5` are absent. -/
theorem generateFieldMapping_threshold (headers : List String) (it : ImportType)
    (header : String) :
    header ∈ (generateFieldMapping headers it).map Prod.fst ↔
      header ∈ headers ∧
        ∃ t ∈ getTargetFields it,
          1 / 2 < calculateSimilarity (normalizeHeader header) (normalizeHeader t) := by
  rw [mem_generateFieldMapping_keys, gt_iff_lt, findBestMatch_gt_half_iff]

theorem calculateSimilarity_eq_of_le (a b : String) (h : a.length ≤ b.length)
    (h0 : b.length ≠ 0) :
    calculateSimilarity a b = ((b.length : ℚ) - levenshteinDistance b a) / b.length := by
  simp only [calculateSimilarity, gt_iff_lt, if_neg (not_lt.mpr h)]
  rw [if_neg h0]

/-- Witness for C3: for Audiences, the header "zzz" scores at most 0.5
against every target, so it is absent, while "Name " (normalized "name")
is present. -/
theorem generateFieldMapping_threshold_witness :
    (¬ ("zzz" ∈
        (generateFieldMapping ["zzz", "Name "] .AUDIENCES).map Prod.fst)) ∧
      "Name " ∈
        (generateFieldMapping ["zzz", "Name "] .AUDIENCES).map Prod.fst := by
  constructor
  · intro hmem
    obtain ⟨-, t, ht, hgt⟩ := (generateFieldMapping_threshold
      ["zzz", "Name "] .AUDIENCES "zzz").mp hmem
    have hz : normalizeHeader "zzz" = "zzz" := by decide
    rw [hz] at hgt
    have hle : calculateSimilarity "zzz" (normalizeHeader t) ≤ 1 / 2 := by
      simp only [getTargetFields, List.mem_cons, List.not_mem_nil, or_false] at ht
      rcases ht with rfl | rfl | rfl | rfl
      · rw [show normalizeHeader "name" = "name" from by decide,
          calculateSimilarity_eq_of_le _ _ (by decide) (by decide),
          show levenshteinDistance "name" "zzz" = 4 from by decide,
          show "name".length = 4 from rfl]
        norm_num
      · rw [show normalizeHeader "type" = "type" from by decide,
          calculateSimilarity_eq_of_le _ _ (by decide) (by decide),
          show levenshteinDistance "type" "zzz" = 4 from by decide,
          show "type".length = 4 from rfl]
        norm_num
      · rw [show normalizeHeader "size" = "size" from by decide,
          calculateSimilarity_eq_of_le _ _ (by decide) (by decide),
          show levenshteinDistance "size" "zzz" = 3 from by decide,
          show "size".length = 4 from rfl]
        norm_num
      · rw [show normalizeHeader "description" = "description" from by decide,
          calculateSimilarity_eq_of_le _ _ (by decide) (by decide),
          show levenshteinDistance "description" "zzz" = 11 from by decide,
          show "description".length = 11 from rfl]
        norm_num
    exact absurd hgt (not_lt.mpr hle)
  · refine (generateFieldMapping_threshold
      ["zzz", "Name "] .AUDIENCES "Name ").mpr ⟨by decide, "name", by decide, ?_⟩
    rw [show normalizeHeader "Name " = "name" from by decide,
      show normalizeHeader "name" = "name" from by decide,
      calculateSimilarity_self]
    norm_num

-- ==================== DATA VALIDATION ====================

/-- Whether `sub` occurs as a contiguous run inside `l`. -/
def hasInfix : List Char → List Char → Bool
  | [], sub => sub.isEmpty
  | a :: rest, sub => sub.isPrefixOf (a :: rest) || hasInfix rest sub

/-- `s.includes(sub)` on strings. -/
def jsIncludes (s sub : String) : Bool :=
  hasInfix s.data sub.data

/-- `s.toLowerCase()`. -/
def toLowerStr (s : String) : String :=
  String.mk (s.data.map Char.toLower)

/-- `isRequiredField`: raw header membership in the kind's required list. -/
def isRequiredField (field : String) (importType : ImportType) : Bool :=
  (getRequiredFields importType).contains field

def numericFields : List String := ["budget", "amount", "bid", "size"]

def dateFields : List String := ["start_date", "end_date", "created_at", "updated_at"]

/-- `getFieldType`: substring heuristics on the lower-cased header name.
The `importType` parameter is unused, as in the source. -/
def getFieldType (field : String) (importType : ImportType) : String :=
  if numericFields.any (fun f => jsIncludes (toLowerStr field) f) then "number"
  else if dateFields.any (fun f => jsIncludes (toLowerStr field) f) then "date"
  else "string"

/-- `getFieldRange`: budget/amount headers range over `[0, 1000000]`, bid
headers over `[0, 100]`; other fields have no range. -/
def getFieldRange (field : String) (importType : ImportType) : Option (ℚ × ℚ) :=
  if jsIncludes (toLowerStr field) "budget" || jsIncludes (toLowerStr field) "amount" then
    some (0, 1000000)
  else if jsIncludes (toLowerStr field) "bid" then some (0, 100)
  else none

def digitsToNat (l : List Char) : Nat :=
  l.foldl (fun n c => n * 10 + (c.toNat - 48)) 0

/-- Models JavaScript `Number(string)` for the plain decimal literals this
subsystem sees: trims whitespace, maps the empty string to `0`, accepts an
optional sign, digits, and an optional fractional part; everything else is
NaN (`none`).  (Exponent/hexadecimal forms of the host parser are not
modelled; no property proved here depends on them.) -/
def jsStringToNumber (s : String) : Option ℚ :=
  let t := ((s.data.dropWhile Char.isWhitespace).reverse.dropWhile Char.isWhitespace).reverse
  if t.isEmpty then some 0
  else
    let sgn : ℚ := match t with
      | '-' :: _ => -1
      | _ => 1
    let rest : List Char := match t with
      | '-' :: r => r
      | '+' :: r => r
      | r => r
    let intPart := rest.takeWhile (fun c => c ≠ '.')
    match rest.dropWhile (fun c => c ≠ '.') with
    | [] =>
        if intPart ≠ [] && intPart.all Char.isDigit then
          some (sgn * (digitsToNat intPart : ℚ))
        else none
    | _ :: frac =>
        if (intPart ≠ [] || frac ≠ []) && intPart.all Char.isDigit &&
            frac.all Char.isDigit then
          some (sgn * ((digitsToNat intPart : ℚ) +
            (digitsToNat frac : ℚ) / (10 : ℚ) ^ frac.length))
        else none

/-- JavaScript `Number(value)` coercion; `none` is NaN. -/
def jsNumber : CellValue → Option ℚ
  | .vnull => some 0
  | .vundefined => none
  | .vbool b => some (if b then 1 else 0)
  | .vnum q => some q
  | .vstr s => jsStringToNumber s

/-- Models JavaScript `Date.parse(value)` succeeding: accepts ISO
`YYYY-MM-DD` strings and numeric values (year parses).  An approximation
of the host date parser; no property proved here depends on its exact
domain. -/
def jsDateParseOk : CellValue → Bool
  | .vstr s =>
      match s.data with
      | [y1, y2, y3, y4, '-', m1, m2, '-', d1, d2] =>
          [y1, y2, y3, y4, m1, m2, d1, d2].all Char.isDigit
      | _ => false
  | .vnum _ => true
  | _ => false

/-- `validateType(value, expectedType)`. -/
def validateType (value : CellValue) (expectedType : String) : Bool :=
  if expectedType = "number" then
    (match value with | .vnum _ => true | _ => false) || (jsNumber value).isSome
  else if expectedType = "date" then jsDateParseOk value
  else if expectedType = "string" then
    (match value with | .vstr _ => true | _ => false)
  else true

/-- `value === null || value === undefined || value === ''`. -/
def isBlank : CellValue → Bool
  | .vnull => true
  | .vundefined => true
  | .vstr s => s == ""
  | _ => false

structure ValidationError where
  row : Nat
  column : String
  value : CellValue
  message : String
  type : String
deriving DecidableEq, Repr

structure ValidationWarning where
  row : Nat
  column : String
  value : CellValue
  message : String
deriving DecidableEq, Repr

structure ValidationSummary where
  totalRows : Nat
  validRows : ℤ
  invalidRows : Nat
  errorCount : Nat
  warningCount : Nat
deriving DecidableEq, Repr

structure ValidationResult where
  isValid : Bool
  errors : List ValidationError
  warnings : List ValidationWarning
  summary : ValidationSummary
deriving DecidableEq, Repr

/-- The body of `validateRow`'s per-column `forEach`: the required-field
check and type check contribute errors, the range check contributes
warnings, in the source's push order. -/
def cellChecks (header : String) (value : CellValue) (importType : ImportType)
    (rowNumber : Nat) : List ValidationError × List ValidationWarning :=
  let requiredErrors :=
    if isRequiredField header importType && isBlank value then
      [⟨rowNumber, header, value, "Required field is empty", "required"⟩]
    else []
  let typeErrors :=
    if !isBlank value && !validateType value (getFieldType header importType) then
      [⟨rowNumber, header, value,
        "Invalid type. Expected " ++ getFieldType header importType, "type"⟩]
    else []
  let rangeWarnings :=
    if getFieldType header importType = "number" then
      match value with
      | .vnum q =>
          match getFieldRange header importType with
          | some (mn, mx) =>
              if q < mn ∨ q > mx then
                [⟨rowNumber, header, value,
                  "Value outside expected range (" ++ toString mn ++ "-" ++
                    toString mx ++ ")"⟩]
              else []
          | none => []
      | _ => []
    else []
  (requiredErrors ++ typeErrors, rangeWarnings)

/-- `validateRow`: apply `cellChecks` to every header/column of one row,
collecting the appended errors and warnings in column order.  A column
beyond the row's end reads as `undefined`. -/
def validateRow (row : List CellValue) (headers : List String)
    (importType : ImportType) (rowNumber : Nat) :
    List ValidationError × List ValidationWarning :=
  (headers.enum.flatMap fun p => (cellChecks p.2 (cellAt row p.1) importType rowNumber).1,
    headers.enum.flatMap fun p => (cellChecks p.2 (cellAt row p.1) importType rowNumber).2)

/-- The missing-required-column scan at the top of `performValidation`:
one row-`0` `required` error per required field absent from the headers. -/
def missingColumnErrors (importType : ImportType) (headers : List String) :
    List ValidationError :=
  (getRequiredFields importType).filterMap fun field =>
    if headers.contains field then none
    else some ⟨0, field, .vnull, "Missing required column: " ++ field, "required"⟩

/-- `performValidation(data, importType)`. -/
def performValidation (data : FileData) (importType : ImportType) : ValidationResult :=
  let errors := missingColumnErrors importType data.headers ++
    data.rows.enum.flatMap fun p => (validateRow p.2 data.headers importType (p.1 + 1)).1
  let warnings :=
    data.rows.enum.flatMap fun p => (validateRow p.2 data.headers importType (p.1 + 1)).2
  { isValid := errors.length == 0
    errors := errors
    warnings := warnings
    summary :=
      { totalRows := data.totalRows
        validRows := (data.totalRows : ℤ) -
          ((errors.filter fun e => e.type == "required").length : ℤ)
        invalidRows := (errors.filter fun e => e.type == "required").length
        errorCount := errors.length
        warningCount := warnings.length } }

theorem mem_enum_of_lt {α : Type _} (l : List α) (i : Nat) (h : i < l.length) :
    (i, l.get ⟨i, h⟩) ∈ l.enum :=
  List.mk_mem_enum_iff_get?.mpr (by rw [List.get?_eq_get h])

/-- A Campaigns sheet whose required "name" cell holds the whitespace-only
string `"   "`. -/
def wsData : FileData :=
  { headers := ["name", "platform", "objective", "budget"]
    rows := [[.vstr "   ", .vstr "meta", .vstr "boost sales", .vstr "5"]]
    totalRows := 1 }

/-- C2 counterexample: "name" is a required Campaigns field and the cell
holds the whitespace-only string `"   "`, yet `performValidation` emits no
error at all — the source compares with `=== ''` and does not trim. -/
theorem whitespace_required_cell_unflagged :
    isRequiredField "name" .CAMPAIGNS = true ∧
      (performValidation wsData .CAMPAIGNS).errors = [] := by
  exact ⟨rfl, rfl⟩

/-- C2 (amended): a required-field cell that is null, undefined or exactly
the empty string is flagged with a `required` error (whitespace-only
strings are not caught). -/
theorem required_blank_emits_error (row : List CellValue) (headers : List String)
    (it : ImportType) (rowNumber j : Nat) (hj : j < headers.length)
    (hreq : isRequiredField (headers.get ⟨j, hj⟩) it = true)
    (hblank : cellAt row j = .vnull ∨ cellAt row j = .vundefined ∨
      cellAt row j = .vstr "") :
    (⟨rowNumber, headers.get ⟨j, hj⟩, cellAt row j, "Required field is empty",
        "required"⟩ : ValidationError) ∈ (validateRow row headers it rowNumber).1 := by
  have hblankB : isBlank (cellAt row j) = true := by
    rcases hblank with h | h | h <;> rw [h] <;> rfl
  have hreq' : isRequiredField headers[j] it = true := hreq
  refine List.mem_flatMap.mpr ⟨(j, headers.get ⟨j, hj⟩), mem_enum_of_lt headers j hj, ?_⟩
  simp [cellChecks, hreq', hblankB]

/-- Witness for C2's amended theorem at a one-column sheet with a null cell. -/
theorem required_blank_emits_error_witness :
    (⟨1, "name", .vnull, "Required field is empty", "required"⟩ : ValidationError) ∈
      (validateRow [.vnull] ["name"] .CAMPAIGNS 1).1 :=
  required_blank_emits_error [.vnull] ["name"] .CAMPAIGNS 1 0 (by decide) (by decide)
    (Or.inl rfl)

/-- C5: `performValidation` is a total function on arbitrary `FileData`
(short rows, arbitrary cell types, unparseable values) — nothing is
thrown — and every problem it detects surfaces in the returned lists:
every error/warning of every row's `validateRow` pass and every
missing-column error is a member of the result, and the summary counts
are the list lengths. -/
theorem performValidation_reports_all (data : FileData) (it : ImportType) (i : Nat)
    (hi : i < data.rows.length) :
    (∀ e ∈ (validateRow (data.rows.get ⟨i, hi⟩) data.headers it (i + 1)).1,
        e ∈ (performValidation data it).errors) ∧
      (∀ w ∈ (validateRow (data.rows.get ⟨i, hi⟩) data.headers it (i + 1)).2,
          w ∈ (performValidation data it).warnings) ∧
      (∀ e ∈ missingColumnErrors it data.headers,
          e ∈ (performValidation data it).errors) ∧
      (performValidation data it).summary.errorCount =
        (performValidation data it).errors.length ∧
      (performValidation data it).summary.warningCount =
        (performValidation data it).warnings.length := by
  refine ⟨?_, ?_, ?_, rfl, rfl⟩
  · intro e he
    exact List.mem_append_right _
      (List.mem_flatMap.mpr ⟨(i, data.rows.get ⟨i, hi⟩), mem_enum_of_lt _ i hi, he⟩)
  · intro w hw
    exact List.mem_flatMap.mpr ⟨(i, data.rows.get ⟨i, hi⟩), mem_enum_of_lt _ i hi, hw⟩
  · intro e he
    exact List.mem_append_left _ he

/-- A malformed Campaigns sheet: one row holding a single boolean cell for
four headers (short row; boolean where a string/number is expected). -/
def shortRowData : FileData :=
  ⟨["name", "platform", "objective", "budget"], [[.vbool true]], 1⟩

/-- Witness for C5 on the malformed sheet `shortRowData`. -/
theorem performValidation_reports_all_witness :
    (∀ e ∈ (validateRow (shortRowData.rows.get ⟨0, by decide⟩) shortRowData.headers
          ImportType.CAMPAIGNS (0 + 1)).1,
        e ∈ (performValidation shortRowData ImportType.CAMPAIGNS).errors) ∧
      (∀ w ∈ (validateRow (shortRowData.rows.get ⟨0, by decide⟩) shortRowData.headers
            ImportType.CAMPAIGNS (0 + 1)).2,
          w ∈ (performValidation shortRowData ImportType.CAMPAIGNS).warnings) ∧
      (∀ e ∈ missingColumnErrors ImportType.CAMPAIGNS shortRowData.headers,
          e ∈ (performValidation shortRowData ImportType.CAMPAIGNS).errors) ∧
      (performValidation shortRowData ImportType.CAMPAIGNS).summary.errorCount =
        (performValidation shortRowData ImportType.CAMPAIGNS).errors.length ∧
      (performValidation shortRowData ImportType.CAMPAIGNS).summary.warningCount =
        (performValidation shortRowData ImportType.CAMPAIGNS).warnings.length :=
  performValidation_reports_all shortRowData ImportType.CAMPAIGNS 0 (by decide)

theorem getFieldType_of_range (header : String) (it : ImportType) (r : ℚ × ℚ)
    (h : getFieldRange header it = some r) : getFieldType header it = "number" := by
  unfold getFieldRange at h
  split_ifs at h with h1 h2
  · rcases (by simpa using h1 : jsIncludes (toLowerStr header) "budget" = true ∨
      jsIncludes (toLowerStr header) "amount" = true) with ha | hb <;>
      simp [getFieldType, numericFields, *]
  · simp [getFieldType, numericFields, h2]

/-- C8: an out-of-range numeric cell in a range-checked column contributes
no error at all — only a warning carrying the row, column and value. -/
theorem range_violation_warning_only (header : String) (it : ImportType) (q : ℚ)
    (rowNumber : Nat) (mn mx : ℚ) (hrange : getFieldRange header it = some (mn, mx))
    (hout : q < mn ∨ q > mx) :
    (cellChecks header (.vnum q) it rowNumber).1 = [] ∧
      ∃ w ∈ (cellChecks header (.vnum q) it rowNumber).2,
        w.row = rowNumber ∧ w.column = header ∧ w.value = .vnum q := by
  have htype := getFieldType_of_range header it (mn, mx) hrange
  constructor
  · simp [cellChecks, htype, isBlank, validateType, jsNumber]
  · refine ⟨⟨rowNumber, header, .vnum q,
      "Value outside expected range (" ++ toString mn ++ "-" ++ toString mx ++ ")"⟩,
      ?_, rfl, rfl, rfl⟩
    simp [cellChecks, htype, hrange, if_pos hout]

/-- Witness for C8: a Keywords "bid" cell of 150 (above the max of 100)
yields no error, one warning, and the whole sheet still validates. -/
theorem range_violation_warning_only_witness :
    ((cellChecks "bid" (.vnum 150) .KEYWORDS 1).1 = [] ∧
      ∃ w ∈ (cellChecks "bid" (.vnum 150) .KEYWORDS 1).2,
        w.row = 1 ∧ w.column = "bid" ∧ w.value = .vnum 150) ∧
      (performValidation
        ⟨["keyword", "match_type", "bid"],
          [[.vstr "shoes", .vstr "exact", .vnum 150]], 1⟩ .KEYWORDS).isValid = true := by
  refine ⟨range_violation_warning_only "bid" .KEYWORDS 150 1 0 100 rfl
    (Or.inr (by norm_num)), ?_⟩
  rfl

/-- The empty Campaigns sheet: no headers, no rows, `totalRows = 0`. -/
def emptyData : FileData := ⟨[], [], 0⟩

/-- C9: `validRows` is `totalRows` minus the number of `required`-kind
errors (including header-level row-0 errors), so on an empty Campaigns
sheet it is `-4 < 0` while `invalidRows = 4` exceeds `totalRows = 0`. -/
theorem validRows_formula_and_negative :
    (∀ (data : FileData) (it : ImportType),
        (performValidation data it).summary.validRows =
          (data.totalRows : ℤ) -
            (((performValidation data it).errors.filter
              fun e => e.type == "required").length : ℤ)) ∧
      (performValidation emptyData .CAMPAIGNS).summary.validRows = -4 ∧
      (performValidation emptyData .CAMPAIGNS).summary.validRows < 0 ∧
      (performValidation emptyData .CAMPAIGNS).summary.invalidRows = 4 ∧
      (performValidation emptyData .CAMPAIGNS).summary.invalidRows >
        (performValidation emptyData .CAMPAIGNS).summary.totalRows := by
  exact ⟨fun data it => rfl, by decide, by decide, by decide, by decide⟩

-- ==================== DATA IMPORT ====================

/-- One entry of `ImportResult.errors`: `{row, data, error}`. -/
structure ImportRowError where
  row : Nat
  data : List CellValue
  error : String
deriving DecidableEq, Repr

/-- The mutable state `performImport` threads through its row loop: the
`ImportResult` fields, plus two observations of the collaborators — the
sequence of values passed to the optional `onProgress` callback and the
number of `importRecord` invocations. -/
structure ImportState where
  success : Bool
  imported : Nat
  failed : Nat
  skipped : Nat
  errors : List ImportRowError
  createdRecords : List String
  updatedRecords : List String
  progressReports : List ℚ
  submitCalls : Nat
deriving DecidableEq, Repr

/-- The `ImportResult` initializer at the top of `performImport`. -/
def initialImportState : ImportState :=
  { success := false, imported := 0, failed := 0, skipped := 0, errors := []
    createdRecords := [], updatedRecords := [], progressReports := [], submitCalls := 0 }

/-- `mapRowData(row, headers, mapping)`: translate positional cells to a
record keyed by target field names; headers without a truthy mapping entry
are dropped. -/
def mapRowData (row : List CellValue) (headers : List String)
    (mapping : List (String × String)) : List (String × CellValue) :=
  headers.enum.filterMap fun p =>
    match mapping.lookup p.2 with
    | some targetField =>
        if targetField ≠ "" then some (targetField, cellAt row p.1) else none
    | none => none

/-- The body of `performImport`'s `for` loop at row `p.1` (0-based): on a
resolved submission a truthy record id increments `imported` and is pushed
to `createdRecords`, then progress `((i+1)/totalRows)*100` is reported; on
a rejected submission `failed` is incremented and an error entry pushed,
and no progress is reported (the `catch` skips the progress line). -/
def importStep (submit : Nat → List (String × CellValue) → Except String String)
    (headers : List String) (mapping : List (String × String)) (totalRows : Nat)
    (st : ImportState) (p : Nat × List CellValue) : ImportState :=
  match submit p.1 (mapRowData p.2 headers mapping) with
  | .ok recordId =>
      let st1 :=
        if recordId ≠ "" then
          { st with imported := st.imported + 1
                    createdRecords := st.createdRecords ++ [recordId] }
        else st
      { st1 with
          progressReports :=
            st1.progressReports ++ [((p.1 + 1 : ℚ) / (totalRows : ℚ)) * 100]
          submitCalls := st1.submitCalls + 1 }
  | .error msg =>
      { st with failed := st.failed + 1
                errors := st.errors ++ [⟨p.1 + 1, p.2, msg⟩]
                submitCalls := st.submitCalls + 1 }

/-- `performImport(upload, mapping, onProgress)` with the downstream
persistence call (`importRecord`, i.e. the POST of the mapped record)
abstracted as `submit`, indexed by the 0-based row number; `Except.ok` is
a resolved promise carrying the record id, `Except.error` a rejection
carrying the error message. -/
def performImport (data : FileData) (mapping : List (String × String))
    (submit : Nat → List (String × CellValue) → Except String String) : ImportState :=
  let st := data.rows.enum.foldl
    (importStep submit data.headers mapping data.rows.length) initialImportState
  { st with success := st.failed == 0 }

/-- Whether row `p`'s submission resolves (successfully), regardless of id. -/
def resolvedPred (submit : Nat → List (String × CellValue) → Except String String)
    (headers : List String) (mapping : List (String × String))
    (p : Nat × List CellValue) : Bool :=
  match submit p.1 (mapRowData p.2 headers mapping) with
  | .ok _ => true
  | .error _ => false

/-- Whether row `p`'s submission resolves with a truthy (nonempty) id. -/
def succPred (submit : Nat → List (String × CellValue) → Except String String)
    (headers : List String) (mapping : List (String × String))
    (p : Nat × List CellValue) : Bool :=
  match submit p.1 (mapRowData p.2 headers mapping) with
  | .ok recordId => decide (recordId ≠ "")
  | .error _ => false

/-- Whether row `p`'s submission rejects. -/
def failPred (submit : Nat → List (String × CellValue) → Except String String)
    (headers : List String) (mapping : List (String × String))
    (p : Nat × List CellValue) : Bool :=
  match submit p.1 (mapRowData p.2 headers mapping) with
  | .ok _ => false
  | .error _ => true

/-- The `createdRecords` entry row `p` contributes, if any. -/
def createdOf (submit : Nat → List (String × CellValue) → Except String String)
    (headers : List String) (mapping : List (String × String))
    (p : Nat × List CellValue) : Option String :=
  match submit p.1 (mapRowData p.2 headers mapping) with
  | .ok recordId => if recordId ≠ "" then some recordId else none
  | .error _ => none

/-- The `errors` entry row `p` contributes, if any. -/
def errorOf (submit : Nat → List (String × CellValue) → Except String String)
    (headers : List String) (mapping : List (String × String))
    (p : Nat × List CellValue) : Option ImportRowError :=
  match submit p.1 (mapRowData p.2 headers mapping) with
  | .ok _ => none
  | .error msg => some ⟨p.1 + 1, p.2, msg⟩

/-- The progress value row `p` reports, if any. -/
def progressOf (submit : Nat → List (String × CellValue) → Except String String)
    (headers : List String) (mapping : List (String × String)) (totalRows : Nat)
    (p : Nat × List CellValue) : Option ℚ :=
  match submit p.1 (mapRowData p.2 headers mapping) with
  | .ok _ => some (((p.1 + 1 : ℚ) / (totalRows : ℚ)) * 100)
  | .error _ => none

theorem foldl_importStep (submit : Nat → List (String × CellValue) → Except String String)
    (headers : List String) (mapping : List (String × String)) (totalRows : Nat)
    (l : List (Nat × List CellValue)) (st : ImportState) :
    l.foldl (importStep submit headers mapping totalRows) st =
      { success := st.success
        imported := st.imported + l.countP (succPred submit headers mapping)
        failed := st.failed + l.countP (failPred submit headers mapping)
        skipped := st.skipped
        errors := st.errors ++ l.filterMap (errorOf submit headers mapping)
        createdRecords := st.createdRecords ++ l.filterMap (createdOf submit headers mapping)
        updatedRecords := st.updatedRecords
        progressReports := st.progressReports ++
          l.filterMap (progressOf submit headers mapping totalRows)
        submitCalls := st.submitCalls + l.length } := by
  induction l generalizing st with
  | nil => simp
  | cons p l ih =>
    rw [List.foldl_cons, ih]
    rcases hsub : submit p.1 (mapRowData p.2 headers mapping) with msg | id
    · simp [importStep, hsub, succPred, failPred, errorOf, createdOf, progressOf,
        List.countP_cons, Nat.add_assoc]
      omega
    · by_cases hid : id = ""
      · simp [importStep, hsub, succPred, failPred, errorOf, createdOf, progressOf,
          List.countP_cons, Nat.add_assoc, hid]
        omega
      · simp [importStep, hsub, succPred, failPred, errorOf, createdOf, progressOf,
          List.countP_cons, Nat.add_assoc, hid]
        omega

/-- A three-row one-column sheet for the import counterexamples. -/
def threeRowData : FileData :=
  ⟨["name"], [[.vstr "a"], [.vstr "b"], [.vstr "c"]], 3⟩

/-- A submit collaborator that resolves row 1 with the falsy id `""`,
rejects row 2, and resolves row 3 with `"id3"`. -/
def mixedSubmit : Nat → List (String × CellValue) → Except String String
  | 0, _ => .ok ""
  | 1, _ => .error "boom"
  | _, _ => .ok "id3"

/-- C1 counterexample: under `mixedSubmit` two of the three rows' submissions
succeed (resolve), but `performImport` reports `imported = 1`, not 2 — a
resolved row whose id is falsy is not counted. -/
theorem performImport_imported_cex :
    threeRowData.rows.enum.countP
        (resolvedPred mixedSubmit threeRowData.headers []) = 2 ∧
      (performImport threeRowData [] mixedSubmit).imported = 1 ∧
      (performImport threeRowData [] mixedSubmit).imported ≠ 2 := by
  exact ⟨rfl, rfl, by decide⟩

/-- C1 (amended): `performImport` attempts every row — one submit call per
row, a rejection never stops later rows — `failed` counts the rejected
rows, `imported` counts the rows that resolve with a truthy (nonempty)
record id, `success` holds exactly when `failed = 0`, and every truthy id
of a resolved row appears in `createdRecords`. -/
theorem performImport_counts (data : FileData) (mapping : List (String × String))
    (submit : Nat → List (String × CellValue) → Except String String) :
    (performImport data mapping submit).submitCalls = data.rows.length ∧
      (performImport data mapping submit).imported =
        data.rows.enum.countP (succPred submit data.headers mapping) ∧
      (performImport data mapping submit).failed =
        data.rows.enum.countP (failPred submit data.headers mapping) ∧
      ((performImport data mapping submit).success = true ↔
        (performImport data mapping submit).failed = 0) ∧
      (∀ p ∈ data.rows.enum, ∀ id : String,
        submit p.1 (mapRowData p.2 data.headers mapping) = .ok id → id ≠ "" →
          id ∈ (performImport data mapping submit).createdRecords) ∧
      (performImport data mapping submit).errors =
        data.rows.enum.filterMap (errorOf submit data.headers mapping) := by
  have hfold := foldl_importStep submit data.headers mapping data.rows.length
    data.rows.enum initialImportState
  refine ⟨?_, ?_, ?_, ?_, ?_, ?_⟩
  · show (data.rows.enum.foldl _ initialImportState).submitCalls = _
    rw [hfold]
    simp [initialImportState, List.enum_length]
  · show (data.rows.enum.foldl _ initialImportState).imported = _
    rw [hfold]
    simp [initialImportState]
  · show (data.rows.enum.foldl _ initialImportState).failed = _
    rw [hfold]
    simp [initialImportState]
  · show ((data.rows.enum.foldl _ initialImportState).failed == 0) = true ↔
      (data.rows.enum.foldl _ initialImportState).failed = 0
    exact beq_iff_eq
  · intro p hp id hsub hid
    show id ∈ (data.rows.enum.foldl _ initialImportState).createdRecords
    rw [hfold]
    simp only [initialImportState, List.nil_append]
    exact List.mem_filterMap.mpr ⟨p, hp, by simp [createdOf, hsub, hid]⟩
  · show (data.rows.enum.foldl _ initialImportState).errors = _
    rw [hfold]
    simp [initialImportState]

/-- Witness for C1's amended theorem under `mixedSubmit`: three submit
calls, `imported = 1`, `failed = 1`, `success` false, and `"id3"` is
recorded. -/
theorem performImport_counts_witness :
    (performImport threeRowData [] mixedSubmit).submitCalls =
        threeRowData.rows.length ∧
      (performImport threeRowData [] mixedSubmit).imported =
        threeRowData.rows.enum.countP (succPred mixedSubmit threeRowData.headers []) ∧
      "id3" ∈ (performImport threeRowData [] mixedSubmit).createdRecords := by
  have h := performImport_counts threeRowData [] mixedSubmit
  exact ⟨h.1, h.2.1, h.2.2.2.2.1 (2, [.vstr "c"]) (by decide) "id3" rfl (by decide)⟩

/-- C4 counterexample: a one-row import whose submission rejects reports no
progress at all — the claim demands one callback with value 100, but the
`catch` branch skips the progress line. -/
theorem performImport_progress_cex :
    (⟨["name"], [[.vstr "a"]], 1⟩ : FileData).rows.length = 1 ∧
      (performImport ⟨["name"], [[.vstr "a"]], 1⟩ []
        (fun _ _ => .error "network")).progressReports = [] := by
  exact ⟨rfl, rfl⟩

theorem filterMap_progressOf_of_all_ok
    (submit : Nat → List (String × CellValue) → Except String String)
    (headers : List String) (mapping : List (String × String)) (N : Nat)
    (l : List (Nat × List CellValue))
    (hall : ∀ p ∈ l, ∃ id, submit p.1 (mapRowData p.2 headers mapping) = .ok id) :
    l.filterMap (progressOf submit headers mapping N) =
      l.map fun p => ((p.1 + 1 : ℚ) / (N : ℚ)) * 100 := by
  induction l with
  | nil => rfl
  | cons p l ih =>
    obtain ⟨id, hid⟩ := hall p (List.mem_cons_self p l)
    rw [List.filterMap_cons, List.map_cons,
      show progressOf submit headers mapping N p =
          some (((p.1 + 1 : ℚ) / (N : ℚ)) * 100) from by simp [progressOf, hid]]
    exact congrArg _ (ih fun q hq => hall q (List.mem_cons_of_mem p hq))

/-- C4 (amended): the progress callback fires exactly after the rows whose
submission resolves, reporting `((rowIndex+1)/totalRows)*100`; rejected
rows trigger no callback.  In particular, when every row resolves there
are N calls and the k-th (0-based) reports `((k+1)/N)*100`. -/
theorem performImport_progress (data : FileData) (mapping : List (String × String))
    (submit : Nat → List (String × CellValue) → Except String String) :
    (performImport data mapping submit).progressReports =
        data.rows.enum.filterMap
          (progressOf submit data.headers mapping data.rows.length) ∧
      ((∀ p ∈ data.rows.enum,
          ∃ id, submit p.1 (mapRowData p.2 data.headers mapping) = .ok id) →
        (performImport data mapping submit).progressReports =
          (List.range data.rows.length).map
            fun k : Nat => (((k : ℚ) + 1) / (data.rows.length : ℚ)) * 100) := by
  have hfold := foldl_importStep submit data.headers mapping data.rows.length
    data.rows.enum initialImportState
  have hrep : (performImport data mapping submit).progressReports =
      data.rows.enum.filterMap
        (progressOf submit data.headers mapping data.rows.length) := by
    show (data.rows.enum.foldl _ initialImportState).progressReports = _
    rw [hfold]
    simp [initialImportState]
  refine ⟨hrep, fun hall => ?_⟩
  rw [hrep, filterMap_progressOf_of_all_ok submit data.headers mapping
    data.rows.length data.rows.enum hall, ← List.enum_map_fst data.rows,
    List.map_map]
  rfl

/-- Witness for C4's amended theorem: a two-row import where every row
resolves reports progress 50 then 100. -/
theorem performImport_progress_witness :
    (performImport ⟨["name"], [[.vstr "a"], [.vstr "b"]], 2⟩ []
        (fun _ _ => .ok "x")).progressReports =
      (List.range (⟨["name"], [[.vstr "a"], [.vstr "b"]], 2⟩ : FileData).rows.length).map
        fun k : Nat =>
          (((k : ℚ) + 1) /
            (((⟨["name"], [[.vstr "a"], [.vstr "b"]], 2⟩ : FileData).rows.length : Nat) : ℚ)) *
            100 :=
  (performImport_progress ⟨["name"], [[.vstr "a"], [.vstr "b"]], 2⟩ []
    (fun _ _ => .ok "x")).2 fun _ _ => ⟨"x", rfl⟩

/-- C10: a row whose submission resolves with a falsy id (the empty
string) is counted in none of `imported`/`failed`/`skipped` and
contributes nothing to `createdRecords` or `errors`; hence with such rows
`imported + failed + skipped` falls short of the row count while `success`
is still `true`, as on this concrete two-row sheet. -/
theorem falsy_id_rows_uncounted :
    (∀ (data : FileData) (mapping : List (String × String))
        (submit : Nat → List (String × CellValue) → Except String String),
      (∀ p ∈ data.rows.enum, submit p.1 (mapRowData p.2 data.headers mapping) = .ok "") →
        (performImport data mapping submit).imported = 0 ∧
          (performImport data mapping submit).failed = 0 ∧
          (performImport data mapping submit).skipped = 0 ∧
          (performImport data mapping submit).createdRecords = [] ∧
          (performImport data mapping submit).errors = [] ∧
          (performImport data mapping submit).success = true) ∧
      ((performImport ⟨["name"], [[.vstr "a"], [.vstr "b"]], 2⟩ []
            fun _ _ => .ok "").imported +
          (performImport ⟨["name"], [[.vstr "a"], [.vstr "b"]], 2⟩ []
            fun _ _ => .ok "").failed +
          (performImport ⟨["name"], [[.vstr "a"], [.vstr "b"]], 2⟩ []
            fun _ _ => .ok "").skipped <
        (⟨["name"], [[.vstr "a"], [.vstr "b"]], 2⟩ : FileData).rows.length) ∧
      (performImport ⟨["name"], [[.vstr "a"], [.vstr "b"]], 2⟩ []
          fun _ _ => .ok "").success = true := by
  refine ⟨?_, by decide, rfl⟩
  intro data mapping submit hall
  have hfold := foldl_importStep submit data.headers mapping data.rows.length
    data.rows.enum initialImportState
  have himp : (performImport data mapping submit).imported = 0 := by
    show (data.rows.enum.foldl _ initialImportState).imported = 0
    rw [hfold]
    simp only [initialImportState, Nat.zero_add]
    exact List.countP_eq_zero.mpr fun p hp => by simp [succPred, hall p hp]
  have hfail : (performImport data mapping submit).failed = 0 := by
    show (data.rows.enum.foldl _ initialImportState).failed = 0
    rw [hfold]
    simp only [initialImportState, Nat.zero_add]
    exact List.countP_eq_zero.mpr fun p hp => by simp [failPred, hall p hp]
  refine ⟨himp, hfail, ?_, ?_, ?_, ?_⟩
  · show (data.rows.enum.foldl _ initialImportState).skipped = 0
    rw [hfold]
    rfl
  · show (data.rows.enum.foldl _ initialImportState).createdRecords = []
    rw [hfold]
    simp only [initialImportState, List.nil_append]
    exact List.filterMap_eq_nil.mpr fun p hp => by simp [createdOf, hall p hp]
  · show (data.rows.enum.foldl _ initialImportState).errors = []
    rw [hfold]
    simp only [initialImportState, List.nil_append]
    exact List.filterMap_eq_nil.mpr fun p hp => by simp [errorOf, hall p hp]
  · show ((data.rows.enum.foldl _ initialImportState).failed == 0) = true
    have : (data.rows.enum.foldl (importStep submit data.headers mapping
        data.rows.length) initialImportState).failed = 0 := hfail
    rw [this]
    rfl

/-- Witness for C10's universal part: the all-falsy two-row import has
zero counts and empty record lists. -/
theorem falsy_id_rows_uncounted_witness :
    (performImport ⟨["name"], [[.vstr "a"], [.vstr "b"]], 2⟩ []
          fun _ _ => .ok "").imported = 0 ∧
      (performImport ⟨["name"], [[.vstr "a"], [.vstr "b"]], 2⟩ []
          fun _ _ => .ok "").failed = 0 ∧
      (performImport ⟨["name"], [[.vstr "a"], [.vstr "b"]], 2⟩ []
          fun _ _ => .ok "").skipped = 0 ∧
      (performImport ⟨["name"], [[.vstr "a"], [.vstr "b"]], 2⟩ []
          fun _ _ => .ok "").createdRecords = [] ∧
      (performImport ⟨["name"], [[.vstr "a"], [.vstr "b"]], 2⟩ []
          fun _ _ => .ok "").errors = [] ∧
      (performImport ⟨["name"], [[.vstr "a"], [.vstr "b"]], 2⟩ []
          fun _ _ => .ok "").success = true :=
  falsy_id_rows_uncounted.1 ⟨["name"], [[.vstr "a"], [.vstr "b"]], 2⟩ []
    (fun _ _ => .ok "") fun _ _ => rfl

end FileUploadService
